import Mathlib

/-!
Verification development for the PhotoApp command-line client (src/main.py).

The program coordinates an object store (S3 bucket of blobs, flat key
namespace) with a relational database (tables `users` and `assets`).
We give a shallow embedding: each command handler becomes a pure Lean
function from the current world state and the handler's console inputs
to a new world state together with a trace of observable events
(console prints, object-store calls, database reads/writes, filesystem
writes).  External gateway outcomes that the Python code branches on
(does the local file exist, did the S3 upload succeed, did the INSERT
succeed) are passed in as explicit oracle arguments.
-/

namespace PhotoApp

/-- A row of the `users` table: `users(userid PK, email, lastname, firstname, bucketfolder)`. -/
structure UserRow where
  userid : Nat
  email : String
  lastname : String
  firstname : String
  bucketfolder : String
deriving DecidableEq

/-- A row of the `assets` table: `assets(assetid PK, userid FK, assetname, bucketkey)`. -/
structure AssetRow where
  assetid : Nat
  userid : Nat
  assetname : String
  bucketkey : String
deriving DecidableEq

/-- Modelled from the spec: the relational database is external (accessed via
the `datatier` gateway, which is not under src/).  We model the two tables as
row lists plus the MySQL auto-increment counters: a successful INSERT assigns
the next identifier (larger than every identifier already in the table) and
records it so that `SELECT LAST_INSERT_ID()` can return it. -/
structure DB where
  users : List UserRow
  assets : List AssetRow
  nextUserId : Nat
  nextAssetId : Nat
  lastInsertId : Nat
deriving DecidableEq

/-- The world the program acts on: the database and the S3 bucket
(a flat namespace of blob keys). -/
structure World where
  db : DB
  s3 : List String
deriving DecidableEq

/-- Observable events of one command execution, in order of occurrence.
`print` is a console output line; `s3Upload`/`s3Download`/`s3List` are
object-store calls; `dbRead`/`dbWrite` are database reads/modifications;
`fsWrite` is a local filesystem write; `displayImage` renders an image. -/
inductive Event where
  | print (msg : String)
  | s3Upload (localPath key : String)
  | s3Download (key dest : String)
  | s3List
  | dbRead (query : String)
  | dbWrite (query : String)
  | fsWrite (filename : String)
  | displayImage (filename : String)
deriving DecidableEq

/-- Final path component (characters after the last slash), as
`pathlib.Path(p).name` for ordinary file paths. -/
def lastComponent (l : List Char) : List Char :=
  (l.reverse.takeWhile (fun c => c ≠ '/')).reverse

/-- The characters after the last dot of the list, if it has a dot. -/
def afterLastDot : List Char → Option (List Char)
  | [] => none
  | c :: cs =>
    match afterLastDot cs with
    | some r => some r
    | none => if c = '.' then some cs else none

/-- Extension of a path, as `pathlib.Path(p).suffix`: the final dot-segment of
the final component, with its dot, unless the last dot is the first character
of the name (hidden files) or the name ends in a dot. -/
def pathSuffix (p : String) : String :=
  match lastComponent p.toList with
  | [] => ""
  | _ :: rest =>
    match afterLastDot rest with
    | some after => if after = [] then "" else String.mk ('.' :: after)
    | none => ""

/-- `SELECT userid FROM users WHERE userid = %s` with the raw console string
as the parameter: the first row whose identifier matches the input. -/
def findUser (db : DB) (s : String) : Option UserRow :=
  db.users.find? (fun u => toString u.userid == s)

/-- `SELECT bucketkey, assetname FROM assets WHERE assetid = %s` with the raw
console string as the parameter: the first row whose identifier matches. -/
def findAsset (db : DB) (s : String) : Option AssetRow :=
  db.assets.find? (fun a => toString a.assetid == s)

/-- `ORDER BY userid DESC`: the user rows sorted by descending identifier. -/
def sortUsersDesc (l : List UserRow) : List UserRow :=
  l.insertionSort (fun a b => b.userid ≤ a.userid)

/-- `ORDER BY assetid DESC`: the asset rows sorted by descending identifier. -/
def sortAssetsDesc (l : List AssetRow) : List AssetRow :=
  l.insertionSort (fun a b => b.assetid ≤ a.assetid)

/-- Command 1, `stats`: prints bucket name, live object count, RDS endpoint,
and the row counts of both tables. -/
def stats (w : World) (bucketname endpoint : String) : World × List Event :=
  (w, [Event.print ("S3 bucket name: " ++ bucketname),
       Event.s3List,
       Event.print ("S3 assets: " ++ toString w.s3.length),
       Event.print ("RDS MySQL endpoint: " ++ endpoint),
       Event.dbRead "SELECT COUNT(*) FROM users",
       Event.print ("# of users: " ++ toString w.db.users.length),
       Event.dbRead "SELECT COUNT(*) FROM assets",
       Event.print ("# of assets: " ++ toString w.db.assets.length)])

/-- The four output lines `users` prints for one user row. -/
def userBlock (u : UserRow) : List Event :=
  [Event.print ("User Id: " ++ toString u.userid),
   Event.print ("  Email: " ++ u.email),
   Event.print ("  Name: " ++ u.lastname ++ " , " ++ u.firstname),
   Event.print ("  Folder: " ++ u.bucketfolder)]

/-- Command 2, `users`: lists all user rows in descending id order. -/
def users (w : World) : World × List Event :=
  (w, Event.dbRead "SELECT * FROM users ORDER BY userid DESC"
        :: (sortUsersDesc w.db.users).flatMap userBlock)

/-- The four output lines `assets` prints for one asset row. -/
def assetBlock (a : AssetRow) : List Event :=
  [Event.print ("Asset id: " ++ toString a.assetid),
   Event.print ("  User id: " ++ toString a.userid),
   Event.print ("  Original name: " ++ a.assetname),
   Event.print ("  Key name: " ++ a.bucketkey)]

/-- Command 3, `assets`: lists all asset rows in descending id order. -/
def assets (w : World) : World × List Event :=
  (w, Event.dbRead "SELECT * FROM assets ORDER BY assetid DESC"
        :: (sortAssetsDesc w.db.assets).flatMap assetBlock)

/-- Commands 4 and 5, `download` (and display): looks the entered asset id up
in the assets table; on a miss prints "No such asset...".  On a hit it calls
`awsutil.download_file` — modelled from the spec (awsutil is not under src/):
the call succeeds and writes the destination file exactly when the source key
is present in the bucket, and a missing key is a recoverable not-found result
— and on download failure prints the same "No such asset..." message. -/
def download (w : World) (assetIdInput : String) (display : Bool) : World × List Event :=
  let ev := [Event.print "Enter asset id>",
             Event.dbRead "SELECT bucketkey, assetname FROM assets WHERE assetid = %s"]
  match findAsset w.db assetIdInput with
  | none => (w, ev ++ [Event.print "No such asset..."])
  | some a =>
    if a.bucketkey ∈ w.s3 then
      let ev2 := ev ++ [Event.s3Download a.bucketkey a.assetname,
                        Event.fsWrite a.assetname,
                        Event.print ("Downloaded from S3 and saved as '  " ++ a.assetname ++ "  '")]
      if display then
        (w, ev2 ++ [Event.displayImage a.assetname])
      else
        (w, ev2)
    else
      (w, ev ++ [Event.s3Download a.bucketkey a.assetname,
                 Event.print "No such asset..."])

/-- The bucket key `upload` generates: a fresh UUID plus the original
file extension (`str(uuid.uuid4()) + pathlib.Path(local_fname).suffix`). -/
def uploadKey (freshUuid localFname : String) : String :=
  freshUuid ++ pathSuffix localFname

/-- Command 6, `upload`: prompts for a local filename and a user id; aborts
with a specific message if the local file is missing or the user id has no
row; otherwise uploads the blob under a freshly generated key (`uploadOk`
is the S3 gateway outcome) and only then inserts the asset row (`insertOk`
is the INSERT outcome), finally reporting the new asset id via
`SELECT LAST_INSERT_ID()`. -/
def upload (w : World) (fs : String → Bool) (localFname userIdInput : String)
    (freshUuid : String) (uploadOk insertOk : Bool) : World × List Event :=
  let ev1 := [Event.print "Enter local filename>"]
  if fs localFname = false then
    (w, ev1 ++ [Event.print ("Local file ' " ++ localFname ++ " ' does not exist...")])
  else
    let ev2 := ev1 ++ [Event.print "Enter user id>",
                       Event.dbRead "SELECT userid FROM users WHERE userid = %s"]
    match findUser w.db userIdInput with
    | none => (w, ev2 ++ [Event.print "No such user..."])
    | some u =>
      let key := uploadKey freshUuid localFname
      let ev3 := ev2 ++ [Event.s3Upload localFname key]
      if uploadOk = false then
        (w, ev3 ++ [Event.print "Failed to upload the file to S3."])
      else
        let w1 : World := { w with s3 := key :: w.s3 }
        let ev4 := ev3 ++ [Event.print ("Uploaded and stored in S3 as ' " ++ key ++ " '"),
                           Event.dbWrite "INSERT INTO assets(userid, assetname, bucketkey) VALUES (%s, %s, %s)"]
        if insertOk = false then
          (w1, ev4 ++ [Event.print "Failed to insert asset info into the database."])
        else
          let newId := w1.db.nextAssetId
          let row : AssetRow := ⟨newId, u.userid, localFname, key⟩
          let w2 : World :=
            { w1 with db := { w1.db with assets := w1.db.assets ++ [row],
                                         nextAssetId := newId + 1,
                                         lastInsertId := newId } }
          (w2, ev4 ++ [Event.dbRead "SELECT LAST_INSERT_ID();",
                       Event.print ("Recorded in RDS under asset id  " ++ toString newId)])

/-- Command 7, `add_user`: prompts for email, last name, first name;
generates a fresh folder UUID; inserts the user row (`insertOk` is the
INSERT outcome) and reports the new user id via `SELECT LAST_INSERT_ID()`. -/
def add_user (w : World) (email lastName firstName : String)
    (freshFolder : String) (insertOk : Bool) : World × List Event :=
  let ev1 := [Event.print "Enter user's email>",
              Event.print "Enter user's last (family) name>",
              Event.print "Enter user's first (given) name>",
              Event.dbWrite "INSERT INTO users(email, lastname, firstname, bucketfolder) VALUES (%s, %s, %s, %s)"]
  if insertOk = false then
    (w, ev1 ++ [Event.print "Failed to insert user info into the database."])
  else
    let newId := w.db.nextUserId
    let row : UserRow := ⟨newId, email, lastName, firstName, freshFolder⟩
    let w1 : World :=
      { w with db := { w.db with users := w.db.users ++ [row],
                                 nextUserId := newId + 1,
                                 lastInsertId := newId } }
    (w1, ev1 ++ [Event.dbRead "SELECT LAST_INSERT_ID();",
                 Event.print ("Recorded in RDS under user id  " ++ toString newId)])

/-- Everything one dispatched handler may consume: the local-filesystem
oracle, up to three free-text console inputs, the freshly generated UUID,
the S3-upload and DB-insert outcomes, and the configuration strings
`stats` prints. -/
structure HandlerEnv where
  fs : String → Bool
  input1 : String
  input2 : String
  input3 : String
  freshUuid : String
  uploadOk : Bool
  insertOk : Bool
  bucketname : String
  endpoint : String

/-- The `while cmd != 0` dispatch chain of main.py (lines 371-397). -/
def dispatch (w : World) (e : HandlerEnv) (cmd : Int) : World × List Event :=
  if cmd = 1 then stats w e.bucketname e.endpoint
  else if cmd = 2 then users w
  else if cmd = 3 then assets w
  else if cmd = 4 then download w e.input1 false
  else if cmd = 5 then download w e.input1 true
  else if cmd = 6 then upload w e.fs e.input1 e.input2 e.freshUuid e.uploadOk e.insertOk
  else if cmd = 7 then add_user w e.input1 e.input2 e.input3 e.freshUuid e.insertOk
  else (w, [Event.print "** Unknown command, try again..."])

/-- State of the outer command loop. -/
inductive LoopState where
  | awaitingCommand
  | terminated
deriving DecidableEq

/-- One iteration of the command loop from the `AWAITING_COMMAND` state.
The prompt reads a line and parses it with `int(...)`; a non-numeric line is
modelled as `none` (the `ValueError` propagates, `sys.tracebacklimit = 0`,
and the process terminates), command code 0 exits the loop, and any other
numeric code is dispatched after which the loop prompts again. -/
def loopStep (w : World) (e : HandlerEnv) (inp : Option Int) :
    World × List Event × LoopState :=
  match inp with
  | none => (w, [], LoopState.terminated)
  | some cmd =>
    if cmd = 0 then (w, [], LoopState.terminated)
    else
      let r := dispatch w e cmd
      (r.1, r.2, LoopState.awaitingCommand)

/-- Outcome of program startup (main.py lines 307-364). -/
inductive StartupOutcome where
  | exitWithCode (code : Nat) (msg : String)
  | enterLoop
deriving DecidableEq

/-- Startup: if the named config file does not exist, print an error and
`sys.exit(0)`; if the database connection comes back `None`, print an error
and `sys.exit(0)`; otherwise enter the command loop. -/
def startup (configFile : String) (configExists dbConnOk : Bool) : StartupOutcome :=
  if configExists = false then
    StartupOutcome.exitWithCode 0
      ("**ERROR: config file ' " ++ configFile ++ " ' does not exist, exiting")
  else if dbConnOk = false then
    StartupOutcome.exitWithCode 0 "**ERROR: unable to connect to database, exiting"
  else
    StartupOutcome.enterLoop

/-- The blob/row consistency invariant: every asset row's store key has a
corresponding blob in the bucket. -/
def assetBlobInv (w : World) : Prop :=
  ∀ a ∈ w.db.assets, a.bucketkey ∈ w.s3

instance (w : World) : Decidable (assetBlobInv w) := by
  unfold assetBlobInv; infer_instance

/-- Well-formedness of the modelled auto-increment counters: every stored
identifier is smaller than the next one to be assigned. -/
def DBwf (db : DB) : Prop :=
  (∀ u ∈ db.users, u.userid < db.nextUserId) ∧
  (∀ a ∈ db.assets, a.assetid < db.nextAssetId)

instance (db : DB) : Decidable (DBwf db) := by
  unfold DBwf; infer_instance

/-! ### Branch characterizations of `upload` -/

lemma upload_eq_noFile (w : World) (fs : String → Bool) (lf uid uuid : String)
    (uOk iOk : Bool) (h : fs lf = false) :
    upload w fs lf uid uuid uOk iOk =
      (w, [Event.print "Enter local filename>",
           Event.print ("Local file ' " ++ lf ++ " ' does not exist...")]) := by
  simp [upload, h]

lemma upload_eq_noUser (w : World) (fs : String → Bool) (lf uid uuid : String)
    (uOk iOk : Bool) (h1 : fs lf = true) (h2 : findUser w.db uid = none) :
    upload w fs lf uid uuid uOk iOk =
      (w, [Event.print "Enter local filename>",
           Event.print "Enter user id>",
           Event.dbRead "SELECT userid FROM users WHERE userid = %s",
           Event.print "No such user..."]) := by
  simp [upload, h1, h2]

lemma upload_eq_uploadFail (w : World) (fs : String → Bool) (lf uid uuid : String)
    (iOk : Bool) (u : UserRow) (h1 : fs lf = true) (h2 : findUser w.db uid = some u) :
    upload w fs lf uid uuid false iOk =
      (w, [Event.print "Enter local filename>",
           Event.print "Enter user id>",
           Event.dbRead "SELECT userid FROM users WHERE userid = %s",
           Event.s3Upload lf (uploadKey uuid lf),
           Event.print "Failed to upload the file to S3."]) := by
  simp [upload, h1, h2]

lemma upload_eq_insertFail (w : World) (fs : String → Bool) (lf uid uuid : String)
    (u : UserRow) (h1 : fs lf = true) (h2 : findUser w.db uid = some u) :
    upload w fs lf uid uuid true false =
      ({ w with s3 := uploadKey uuid lf :: w.s3 },
       [Event.print "Enter local filename>",
        Event.print "Enter user id>",
        Event.dbRead "SELECT userid FROM users WHERE userid = %s",
        Event.s3Upload lf (uploadKey uuid lf),
        Event.print ("Uploaded and stored in S3 as ' " ++ uploadKey uuid lf ++ " '"),
        Event.dbWrite "INSERT INTO assets(userid, assetname, bucketkey) VALUES (%s, %s, %s)",
        Event.print "Failed to insert asset info into the database."]) := by
  simp [upload, h1, h2]

lemma upload_eq_success (w : World) (fs : String → Bool) (lf uid uuid : String)
    (u : UserRow) (h1 : fs lf = true) (h2 : findUser w.db uid = some u) :
    upload w fs lf uid uuid true true =
      (⟨{ w.db with assets := w.db.assets ++ [⟨w.db.nextAssetId, u.userid, lf, uploadKey uuid lf⟩],
                    nextAssetId := w.db.nextAssetId + 1,
                    lastInsertId := w.db.nextAssetId },
        uploadKey uuid lf :: w.s3⟩,
       [Event.print "Enter local filename>",
        Event.print "Enter user id>",
        Event.dbRead "SELECT userid FROM users WHERE userid = %s",
        Event.s3Upload lf (uploadKey uuid lf),
        Event.print ("Uploaded and stored in S3 as ' " ++ uploadKey uuid lf ++ " '"),
        Event.dbWrite "INSERT INTO assets(userid, assetname, bucketkey) VALUES (%s, %s, %s)",
        Event.dbRead "SELECT LAST_INSERT_ID();",
        Event.print ("Recorded in RDS under asset id  " ++ toString w.db.nextAssetId)]) := by
  simp [upload, h1, h2]

/-! ### Concrete worlds used by witnesses and counterexamples -/

/-- An empty world: no users, no assets, no blobs. -/
def emptyWorld : World := ⟨⟨[], [], 1, 1, 0⟩, []⟩

/-- A world with one user (id 1) whose folder identifier is a known UUID. -/
def oneUserWorld : World :=
  ⟨⟨[⟨1, "a@b.com", "Smith", "Jane", "11111111-2222-3333-4444-555555555555"⟩],
    [], 2, 1, 0⟩, []⟩

/-- A world with one asset row (id 7) whose blob is missing from the bucket. -/
def danglingAssetWorld : World :=
  ⟨⟨[], [⟨7, 1, "a.jpg", "k-1.jpg"⟩], 1, 8, 0⟩, []⟩

/-- A concrete handler environment for loop witnesses. -/
def envW : HandlerEnv :=
  ⟨fun _ => false, "", "", "", "u-0", true, true, "photoapp-bucket", "db.example.com"⟩

/-! ### Claim theorems -/

/-- C3: if the entered local path does not exist, `upload` prints only the
filename prompt and the file-missing message and returns: the world is
unchanged and the trace contains no object-store event, no database event,
and in particular not even the "Enter user id>" prompt. -/
theorem upload_missing_local_file_aborts_early (w : World) (fs : String → Bool)
    (lf uid uuid : String) (uOk iOk : Bool) (h : fs lf = false) :
    upload w fs lf uid uuid uOk iOk =
      (w, [Event.print "Enter local filename>",
           Event.print ("Local file ' " ++ lf ++ " ' does not exist...")]) :=
  upload_eq_noFile w fs lf uid uuid uOk iOk h

/-- Witness for C3 at a concrete input: the path `/no/such/file.jpg` is
absent from the modelled filesystem, and the command produces exactly the
two prints and no state change. -/
theorem upload_missing_local_file_aborts_early_witness :
    upload emptyWorld (fun _ => false) "/no/such/file.jpg" "1" "u-1" true true =
      (emptyWorld,
       [Event.print "Enter local filename>",
        Event.print "Local file ' /no/such/file.jpg ' does not exist..."]) :=
  upload_missing_local_file_aborts_early emptyWorld (fun _ => false)
    "/no/such/file.jpg" "1" "u-1" true true rfl

/-- C4: if the entered asset id matches no row of the assets table,
`download` prints only the prompt, performs the lookup query, and prints
"No such asset...": the world is unchanged and the trace contains no
object-store download and no filesystem write. -/
theorem download_missing_row_no_write (w : World) (s : String) (display : Bool)
    (h : findAsset w.db s = none) :
    download w s display =
      (w, [Event.print "Enter asset id>",
           Event.dbRead "SELECT bucketkey, assetname FROM assets WHERE assetid = %s",
           Event.print "No such asset..."]) := by
  simp [download, h]

/-- Witness for C4: asset id `99999999` in the empty world. -/
theorem download_missing_row_no_write_witness :
    download emptyWorld "99999999" false =
      (emptyWorld,
       [Event.print "Enter asset id>",
        Event.dbRead "SELECT bucketkey, assetname FROM assets WHERE assetid = %s",
        Event.print "No such asset..."]) :=
  download_missing_row_no_write emptyWorld "99999999" false rfl

/-- C5: the two download failure causes are reported identically: whether the
assets row is missing, or the row exists but its blob is missing from the
bucket, the last console output of `download` is the same
"No such asset..." message. -/
theorem download_failures_share_message (w : World) (s : String) (display : Bool) :
    (findAsset w.db s = none →
       (download w s display).2.getLast? = some (Event.print "No such asset...")) ∧
    (∀ a, findAsset w.db s = some a → a.bucketkey ∉ w.s3 →
       (download w s display).2.getLast? = some (Event.print "No such asset...")) := by
  constructor
  · intro h
    simp [download, h]
  · intro a h hblob
    simp [download, h, hblob]

/-- Witness for C5: in `danglingAssetWorld`, downloading asset 7 (row exists,
blob missing) and asset 8 (no row) both end with the same message. -/
theorem download_failures_share_message_witness :
    (download danglingAssetWorld "7" false).2.getLast? =
        some (Event.print "No such asset...") ∧
    (download danglingAssetWorld "8" false).2.getLast? =
        some (Event.print "No such asset...") :=
  ⟨(download_failures_share_message danglingAssetWorld "7" false).2
      ⟨7, 1, "a.jpg", "k-1.jpg"⟩ (by decide) (by decide),
   (download_failures_share_message danglingAssetWorld "8" false).1 (by decide)⟩

/-- C6: for every command code 1 through 7, whatever the world and whatever
the handler's inputs and gateway outcomes, the loop step ends back in the
`awaitingCommand` state (it re-prompts rather than terminating). -/
theorem loop_reprompts_after_valid_command (w : World) (e : HandlerEnv) (cmd : Int)
    (h1 : 1 ≤ cmd) (h2 : cmd ≤ 7) :
    (loopStep w e (some cmd)).2.2 = LoopState.awaitingCommand := by
  have h0 : ¬ cmd = 0 := by omega
  simp [loopStep, h0]

/-- Witness for C6 at command code 6 (upload) in a concrete environment. -/
theorem loop_reprompts_after_valid_command_witness :
    (loopStep emptyWorld envW (some 6)).2.2 = LoopState.awaitingCommand :=
  loop_reprompts_after_valid_command emptyWorld envW 6 (by decide) (by decide)

/-- C7: for every numeric command code outside 0–7 (negative codes included),
the loop step leaves the world unchanged, emits exactly the warning print
(so no gateway call and no other side effect), and returns to the
`awaitingCommand` state. -/
theorem loop_warns_on_unknown_numeric_command (w : World) (e : HandlerEnv) (cmd : Int)
    (h : cmd < 0 ∨ 7 < cmd) :
    loopStep w e (some cmd) =
      (w, [Event.print "** Unknown command, try again..."],
       LoopState.awaitingCommand) := by
  have h0 : ¬ cmd = 0 := by omega
  have e1 : ¬ cmd = 1 := by omega
  have e2 : ¬ cmd = 2 := by omega
  have e3 : ¬ cmd = 3 := by omega
  have e4 : ¬ cmd = 4 := by omega
  have e5 : ¬ cmd = 5 := by omega
  have e6 : ¬ cmd = 6 := by omega
  have e7 : ¬ cmd = 7 := by omega
  simp [loopStep, dispatch, h0, e1, e2, e3, e4, e5, e6, e7]

/-- Witness for C7 at command code -1. -/
theorem loop_warns_on_unknown_numeric_command_witness :
    loopStep emptyWorld envW (some (-1)) =
      (emptyWorld, [Event.print "** Unknown command, try again..."],
       LoopState.awaitingCommand) :=
  loop_warns_on_unknown_numeric_command emptyWorld envW (-1) (Or.inl (by decide))

/-- C8: non-numeric input at the command prompt (the failed `int(...)` parse,
modelled as `none`) terminates the loop, and the loop step terminates for
exactly the inputs `none` and the exit code `some 0` — every other input
leads back to `awaitingCommand`. -/
theorem loop_terminates_only_on_parse_failure_or_exit (w : World) (e : HandlerEnv) :
    (loopStep w e none).2.2 = LoopState.terminated ∧
    ∀ inp : Option Int,
      ((loopStep w e inp).2.2 = LoopState.terminated ↔ (inp = none ∨ inp = some 0)) := by
  refine ⟨rfl, ?_⟩
  intro inp
  match inp with
  | none => simp [loopStep]
  | some cmd =>
    by_cases h : cmd = 0
    · simp [loopStep, h]
    · simp [loopStep, h]

/-- C10: both fatal startup failures exit with status code 0: a missing
config file exits with code 0 after its error message, and a failed database
connection exits with code 0 after its error message. -/
theorem startup_fatal_exit_code_zero (configFile : String) :
    (∀ dbOk : Bool, startup configFile false dbOk =
       StartupOutcome.exitWithCode 0
         ("**ERROR: config file ' " ++ configFile ++ " ' does not exist, exiting")) ∧
    startup configFile true false =
      StartupOutcome.exitWithCode 0 "**ERROR: unable to connect to database, exiting" :=
  ⟨fun _ => rfl, rfl⟩

/-- C1: the blob upload strictly precedes the asset-row insert — whenever the
trace of `upload` contains a database write, an S3 upload of the generated
key occurs at a strictly earlier position; the blob/row invariant is
preserved by every execution; and when the S3 upload fails the command leaves
the world untouched, performs no database write, and its final console
output is the upload-failure message. -/
theorem upload_blob_before_row (w : World) (fs : String → Bool)
    (lf uid uuid : String) (uOk iOk : Bool) :
    (∀ q, Event.dbWrite q ∈ (upload w fs lf uid uuid uOk iOk).2 →
       ∃ i j : Nat, i < j ∧
         (upload w fs lf uid uuid uOk iOk).2[i]? =
           some (Event.s3Upload lf (uploadKey uuid lf)) ∧
         (upload w fs lf uid uuid uOk iOk).2[j]? = some (Event.dbWrite q)) ∧
    (assetBlobInv w → assetBlobInv (upload w fs lf uid uuid uOk iOk).1) ∧
    (uOk = false →
       (upload w fs lf uid uuid uOk iOk).1 = w ∧
       (∀ q, Event.dbWrite q ∉ (upload w fs lf uid uuid uOk iOk).2) ∧
       (Event.s3Upload lf (uploadKey uuid lf) ∈ (upload w fs lf uid uuid uOk iOk).2 →
         (upload w fs lf uid uuid uOk iOk).2.getLast? =
           some (Event.print "Failed to upload the file to S3."))) := by
  cases hfs : fs lf with
  | false =>
    rw [upload_eq_noFile w fs lf uid uuid uOk iOk hfs]
    refine ⟨?_, fun h => h, fun _ => ⟨rfl, ?_, ?_⟩⟩
    · intro q hq; simp at hq
    · intro q hq; simp at hq
    · intro hmem; simp at hmem
  | true =>
    cases hu : findUser w.db uid with
    | none =>
      rw [upload_eq_noUser w fs lf uid uuid uOk iOk hfs hu]
      refine ⟨?_, fun h => h, fun _ => ⟨rfl, ?_, ?_⟩⟩
      · intro q hq; simp at hq
      · intro q hq; simp at hq
      · intro hmem; simp at hmem
    | some u =>
      cases uOk with
      | false =>
        rw [upload_eq_uploadFail w fs lf uid uuid iOk u hfs hu]
        refine ⟨?_, fun h => h, fun _ => ⟨rfl, ?_, fun _ => rfl⟩⟩
        · intro q hq; simp at hq
        · intro q hq; simp at hq
      | true =>
        cases iOk with
        | false =>
          rw [upload_eq_insertFail w fs lf uid uuid u hfs hu]
          refine ⟨?_, ?_, fun h => Bool.noConfusion h⟩
          · intro q hq
            simp at hq
            subst hq
            exact ⟨3, 5, by omega, rfl, rfl⟩
          · intro hinv a ha
            exact List.mem_cons_of_mem _ (hinv a ha)
        | true =>
          rw [upload_eq_success w fs lf uid uuid u hfs hu]
          refine ⟨?_, ?_, fun h => Bool.noConfusion h⟩
          · intro q hq
            simp at hq
            subst hq
            exact ⟨3, 5, by omega, rfl, rfl⟩
          · intro hinv a ha
            rcases List.mem_append.1 ha with h | h
            · exact List.mem_cons_of_mem _ (hinv a h)
            · simp at h
              subst h
              exact List.mem_cons_self _ _

/-- Witness for C1: in `oneUserWorld` a successful upload preserves the
blob/row invariant, and a failed upload leaves the world unchanged. -/
theorem upload_blob_before_row_witness :
    assetBlobInv (upload oneUserWorld (fun _ => true) "photo.jpg" "1" "u-1" true true).1 ∧
    (upload oneUserWorld (fun _ => true) "photo.jpg" "1" "u-1" false true).1 = oneUserWorld :=
  ⟨(upload_blob_before_row oneUserWorld (fun _ => true) "photo.jpg" "1" "u-1" true true).2.1
      (by decide),
   ((upload_blob_before_row oneUserWorld (fun _ => true) "photo.jpg" "1" "u-1" false true).2.2
      rfl).1⟩

/-- `s` begins with `t` (the claim's "namespace" relation on bucket keys). -/
def strBeginsWith (s t : String) : Bool :=
  s.data.take t.data.length == t.data

/-- C2 counterexample: uploading `photo.jpg` for user 1, whose stored
bucketfolder is `11111111-2222-3333-4444-555555555555`, with fresh UUID
`99999999-8888-7777-6666-000000000000`, sends the blob to S3 under the key
`99999999-8888-7777-6666-000000000000.jpg` (the raw UUID plus extension) and
records that key in the asset row: the generated key does not begin with the
owning user's bucketfolder — the code never reads the folder identifier. -/
theorem upload_key_not_under_user_folder :
    Event.s3Upload "photo.jpg" "99999999-8888-7777-6666-000000000000.jpg"
        ∈ (upload oneUserWorld (fun _ => true) "photo.jpg" "1"
             "99999999-8888-7777-6666-000000000000" true true).2 ∧
    strBeginsWith "99999999-8888-7777-6666-000000000000.jpg"
        "11111111-2222-3333-4444-555555555555" = false ∧
    (upload oneUserWorld (fun _ => true) "photo.jpg" "1"
        "99999999-8888-7777-6666-000000000000" true true).1.db.assets =
      [⟨1, 1, "photo.jpg", "99999999-8888-7777-6666-000000000000.jpg"⟩] := by
  refine ⟨?_, ?_, ?_⟩ <;> decide

instance : IsTotal UserRow (fun a b => b.userid ≤ a.userid) :=
  ⟨fun a b => Or.symm (Nat.le_total a.userid b.userid)⟩

instance : IsTrans UserRow (fun a b => b.userid ≤ a.userid) :=
  ⟨fun _ _ _ h1 h2 => Nat.le_trans h2 h1⟩

/-- A row with a strictly largest identifier heads the descending listing. -/
lemma head_sortUsersDesc (l : List UserRow) (x : UserRow)
    (hx : x ∈ l) (hmax : ∀ y ∈ l, y = x ∨ y.userid < x.userid) :
    (sortUsersDesc l).head? = some x := by
  have hs : List.Sorted (fun a b : UserRow => b.userid ≤ a.userid) (sortUsersDesc l) :=
    List.sorted_insertionSort _ l
  have hmem : x ∈ sortUsersDesc l := (List.mem_insertionSort _).2 hx
  match hsl : sortUsersDesc l with
  | [] =>
    rw [hsl] at hmem
    simp at hmem
  | h :: t =>
    rw [hsl] at hmem hs
    have hh : h ∈ l := by
      have hmh : h ∈ sortUsersDesc l := by
        rw [hsl]; exact List.mem_cons_self _ _
      exact (List.mem_insertionSort _).1 hmh
    rcases hmax h hh with he | hlt
    · rw [he]; rfl
    · rcases List.mem_cons.1 hmem with he2 | ht
      · exfalso; rw [he2] at hlt; omega
      · have hle : x.userid ≤ h.userid := List.rel_of_sorted_cons hs x ht
        exfalso; omega

/-- C9: after a successful `add_user`, the new row carries the next user
identifier and the freshly generated folder; an immediately following
`users` command lists it first — the descending listing's head is the new
row, and the command's output starts with the query followed by exactly the
new user's block. -/
theorem add_user_then_listed_first (w : World) (email ln fn folder : String)
    (hwf : DBwf w.db) :
    (sortUsersDesc (add_user w email ln fn folder true).1.db.users).head? =
        some ⟨w.db.nextUserId, email, ln, fn, folder⟩ ∧
    ∃ rest, (users (add_user w email ln fn folder true).1).2 =
        Event.dbRead "SELECT * FROM users ORDER BY userid DESC"
          :: (userBlock ⟨w.db.nextUserId, email, ln, fn, folder⟩ ++ rest) := by
  have hdb : (add_user w email ln fn folder true).1.db.users =
      w.db.users ++ [⟨w.db.nextUserId, email, ln, fn, folder⟩] := by
    simp [add_user]
  have hhead : (sortUsersDesc (add_user w email ln fn folder true).1.db.users).head? =
      some ⟨w.db.nextUserId, email, ln, fn, folder⟩ := by
    rw [hdb]
    apply head_sortUsersDesc
    · exact List.mem_append.2 (Or.inr (List.mem_cons_self _ _))
    · intro y hy
      rcases List.mem_append.1 hy with h | h
      · right
        exact hwf.1 y h
      · left
        simpa using h
  refine ⟨hhead, ?_⟩
  rcases hsl : sortUsersDesc (add_user w email ln fn folder true).1.db.users with _ | ⟨hd, tl⟩
  · rw [hsl] at hhead
    simp at hhead
  · rw [hsl] at hhead
    simp only [List.head?_cons, Option.some.injEq] at hhead
    refine ⟨tl.flatMap userBlock, ?_⟩
    simp [users, hsl, hhead]

/-- Witness for C9: adding Jane Smith to the empty world (well-formed
counters) makes her row, with folder `f-1`, the head of the descending
listing, and the listing output opens with her block. -/
theorem add_user_then_listed_first_witness :
    (sortUsersDesc (add_user emptyWorld "a@b.com" "Smith" "Jane" "f-1" true).1.db.users).head? =
        some ⟨1, "a@b.com", "Smith", "Jane", "f-1"⟩ ∧
    ∃ rest, (users (add_user emptyWorld "a@b.com" "Smith" "Jane" "f-1" true).1).2 =
        Event.dbRead "SELECT * FROM users ORDER BY userid DESC"
          :: (userBlock ⟨1, "a@b.com", "Smith", "Jane", "f-1"⟩ ++ rest) :=
  add_user_then_listed_first emptyWorld "a@b.com" "Smith" "Jane" "f-1" (by decide)

end PhotoApp
